import Mathlib

/-!
Verification of the I2C device wrapper library (src/src/I2CDevice.h).

The library wraps an external two-wire bus driver (the `TwoWire` class of
the Arduino core, called the bus-transport handle in the specification).
The transport handle is an external collaborator whose code is not part of
this repository, so it is modelled here from the transport contract stated
in the specification: `beginTransmission(address)` starts queuing outbound
bytes for that address, `write` queues bytes up to the remaining outbound
capacity and returns the accepted count, `endTransmission([sendStop])`
commits the transfer and yields a five-valued status code chosen by the
simulated bus, `requestFrom(address, count)` transfers up to `count` bytes
from the addressed peer into the receive buffer and returns the received
count, `available` counts unread received bytes, and `read` pops one byte
or yields the sentinel -1 when empty.

The wrapper classes `I2CDevice` and `HasI2CDevice` are embedded directly
from the source.  In the C++ code the wrapper holds a reference to the
shared `TwoWire` object; here the transport state is passed explicitly, so
each member function becomes a function from the device state and the
transport state to the updated states and the returned value.
-/

/-- Modelled from the spec: the external bus-transport handle (`TwoWire`),
whose code is not part of this repository.  `txAddress` is the peer address
of the current outbound transaction, `txBuffer` the queued outbound bytes,
`txRemaining` the remaining outbound buffer capacity, `rxBuffer` the
receive buffer, `reqAddress` the peer address of the most recent read
request, `slaveData` the bytes the addressed peer would supply on a read
request, and `nextStatus` the status code the simulated bus yields at the
next end of transaction. -/
structure TwoWire where
  txAddress : Nat
  txBuffer : List Nat
  txRemaining : Nat
  rxBuffer : List Nat
  reqAddress : Nat
  slaveData : List Nat
  nextStatus : Nat
deriving Repr, DecidableEq

/-- Modelled from the spec: `TwoWire.beginTransmission(address)` starts a
new outbound transaction for the given peer address. -/
def TwoWire.beginTransmission (w : TwoWire) (address : Nat) : TwoWire :=
  { w with txAddress := address, txBuffer := [] }

/-- Modelled from the spec: single-byte `TwoWire.write`; the byte is
accepted when outbound capacity remains, and the accepted count (1 or 0)
is returned. -/
def TwoWire.writeByte (w : TwoWire) (data : Nat) : TwoWire × Nat :=
  if w.txRemaining = 0 then (w, 0)
  else ({ w with txBuffer := w.txBuffer ++ [data],
                 txRemaining := w.txRemaining - 1 }, 1)

/-- Modelled from the spec: buffer `TwoWire.write`; bytes are accepted up
to the remaining outbound capacity and the accepted count is returned
(silent truncation, never an error). -/
def TwoWire.writeBuffer (w : TwoWire) (data : List Nat) : TwoWire × Nat :=
  let n := min data.length w.txRemaining
  ({ w with txBuffer := w.txBuffer ++ data.take n,
            txRemaining := w.txRemaining - n }, n)

/-- Modelled from the spec: `TwoWire.endTransmission(sendStop)` commits the
queued transfer and yields the five-valued status code of the simulated
bus. -/
def TwoWire.endTransmissionStop (w : TwoWire) (sendStop : Nat) : TwoWire × Nat :=
  ({ w with txBuffer := [] }, w.nextStatus)

/-- Modelled from the spec: `TwoWire.endTransmission()` without an
argument sends a stop condition. -/
def TwoWire.endTransmission (w : TwoWire) : TwoWire × Nat :=
  w.endTransmissionStop 1

/-- Modelled from the spec: `TwoWire.requestFrom(address, quantity)`
transfers up to `quantity` bytes from the addressed peer into the receive
buffer and returns the count actually received. -/
def TwoWire.requestFrom (w : TwoWire) (address : Nat) (quantity : Nat) : TwoWire × Nat :=
  let got := min quantity w.slaveData.length
  ({ w with reqAddress := address,
            rxBuffer := w.rxBuffer ++ w.slaveData.take got,
            slaveData := w.slaveData.drop got }, got)

/-- Modelled from the spec: `TwoWire.available()` counts the unread bytes
in the receive buffer. -/
def TwoWire.available (w : TwoWire) : Nat :=
  w.rxBuffer.length

/-- Modelled from the spec: `TwoWire.read()` pops one byte from the
receive buffer, or yields the sentinel -1 when the buffer is empty. -/
def TwoWire.read (w : TwoWire) : TwoWire × Int :=
  match w.rxBuffer with
  | [] => (w, -1)
  | b :: rest => ({ w with rxBuffer := rest }, (b : Int))

/-- The `I2CDevice` wrapper state: the immutable 7-bit device address
`dev_address` (a `const` field in the source) and the stored bus status
`m_status`.  The `wire` reference member is externalized: the shared
`TwoWire` state is passed explicitly to each operation. -/
structure I2CDevice where
  dev_address : Nat
  m_status : Nat
deriving Repr, DecidableEq

/-- Bus result constant `I2CDevice::SUCCESS`. -/
def I2CDevice.SUCCESS : Nat := 0

/-- Bus result constant `I2CDevice::DATA_TOO_LONG`. -/
def I2CDevice.DATA_TOO_LONG : Nat := 1

/-- Bus result constant `I2CDevice::NACK_ON_ADDRESS`. -/
def I2CDevice.NACK_ON_ADDRESS : Nat := 2

/-- Bus result constant `I2CDevice::NACK_ON_DATA`. -/
def I2CDevice.NACK_ON_DATA : Nat := 3

/-- Bus result constant `I2CDevice::OTHER_ERROR`. -/
def I2CDevice.OTHER_ERROR : Nat := 4

/-- The `I2CDevice` constructor: stores the given address; `m_status` is
not initialized by the constructor, so its initial value is an arbitrary
parameter. -/
def I2CDevice.construct (address : Nat) (initialStatus : Nat) : I2CDevice :=
  { dev_address := address, m_status := initialStatus }

/-- `I2CDevice::getAddress`: returns the stored device address. -/
def I2CDevice.getAddress (d : I2CDevice) : Nat :=
  d.dev_address

/-- `I2CDevice::getStatus`: returns the stored bus status. -/
def I2CDevice.getStatus (d : I2CDevice) : Nat :=
  d.m_status

/-- `I2CDevice::getBusStatus`: returns the stored bus status. -/
def I2CDevice.getBusStatus (d : I2CDevice) : Nat :=
  d.m_status

/-- `I2CDevice::beginTransmission`: calls
`wire.beginTransmission(getAddress())`. -/
def I2CDevice.beginTransmission (d : I2CDevice) (w : TwoWire) : I2CDevice × TwoWire :=
  (d, w.beginTransmission d.getAddress)

/-- `I2CDevice::write(uint8_t)`: returns `wire.write(data)`. -/
def I2CDevice.writeByte (d : I2CDevice) (w : TwoWire) (data : Nat) : I2CDevice × TwoWire × Nat :=
  let r := w.writeByte data
  (d, r.1, r.2)

/-- `I2CDevice::write(const uint8_t*, size_t)`: returns
`wire.write(data, size)`. -/
def I2CDevice.writeBuffer (d : I2CDevice) (w : TwoWire) (data : List Nat) : I2CDevice × TwoWire × Nat :=
  let r := w.writeBuffer data
  (d, r.1, r.2)

/-- `I2CDevice::available`: returns `wire.available()`. -/
def I2CDevice.available (d : I2CDevice) (w : TwoWire) : Nat :=
  w.available

/-- `I2CDevice::read`: returns `wire.read()`. -/
def I2CDevice.read (d : I2CDevice) (w : TwoWire) : I2CDevice × TwoWire × Int :=
  let r := w.read
  (d, r.1, r.2)

/-- `I2CDevice::endTransmission()`: stores `wire.endTransmission()` into
`m_status` and returns it. -/
def I2CDevice.endTransmission (d : I2CDevice) (w : TwoWire) : I2CDevice × TwoWire × Nat :=
  let r := w.endTransmission
  ({ d with m_status := r.2 }, r.1, r.2)

/-- `I2CDevice::endTransmission(uint8_t sendStop)`: stores
`wire.endTransmission(sendStop)` into `m_status` and returns it. -/
def I2CDevice.endTransmissionStop (d : I2CDevice) (w : TwoWire) (sendStop : Nat) : I2CDevice × TwoWire × Nat :=
  let r := w.endTransmissionStop sendStop
  ({ d with m_status := r.2 }, r.1, r.2)

/-- `I2CDevice::requestBytes`: returns
`wire.requestFrom(getAddress(), noBytes)`; note that the source does not
store anything into `m_status` here. -/
def I2CDevice.requestBytes (d : I2CDevice) (w : TwoWire) (noBytes : Nat) : I2CDevice × TwoWire × Nat :=
  let r := w.requestFrom d.getAddress noBytes
  (d, r.1, r.2)

/-- `I2CDevice::printBusStatus`: prints a fixed label and then the stored
status to the given text sink, modelled as the list of emitted print
tokens. -/
def I2CDevice.printBusStatus (d : I2CDevice) (sink : List String) : List String :=
  sink ++ [ "Current I2C status : ", toString d.m_status ]

/-- `I2CDevice::detect`: calls `wire.beginTransmission(dev_address)` and
returns whether `wire.endTransmission()` equals 0; the source calls the
transport directly and does not store the result into `m_status`. -/
def I2CDevice.detect (d : I2CDevice) (w : TwoWire) : I2CDevice × TwoWire × Bool :=
  let w1 := w.beginTransmission d.dev_address
  let r := w1.endTransmission
  (d, r.1, r.2 == 0)

/-- The `HasI2CDevice` mixin state: it owns exactly one `I2CDevice` field
`bus` and nothing else. -/
structure HasI2CDevice where
  bus : I2CDevice
deriving Repr, DecidableEq

/-- The `HasI2CDevice` constructor: constructs the owned `bus` device from
the given address (status initially arbitrary, as in `I2CDevice`). -/
def HasI2CDevice.construct (address : Nat) (initialStatus : Nat) : HasI2CDevice :=
  { bus := I2CDevice.construct address initialStatus }

/-- `HasI2CDevice::getBusStatus`: returns `bus.getBusStatus()`. -/
def HasI2CDevice.getBusStatus (h : HasI2CDevice) : Nat :=
  h.bus.getBusStatus

/-- `HasI2CDevice::printBusStatus`: calls `bus.printBusStatus(printable)`. -/
def HasI2CDevice.printBusStatus (h : HasI2CDevice) (sink : List String) : List String :=
  h.bus.printBusStatus sink

/-- `HasI2CDevice::detect`: returns `bus.detect()`. -/
def HasI2CDevice.detect (h : HasI2CDevice) (w : TwoWire) : HasI2CDevice × TwoWire × Bool :=
  let r := h.bus.detect w
  ({ bus := r.1 }, r.2.1, r.2.2)

/-- A sample transport state used by concrete witnesses: empty buffers,
capacity 32, two peer bytes available, next status 0. -/
def sampleWire : TwoWire :=
  { txAddress := 0, txBuffer := [], txRemaining := 32, rxBuffer := [],
    reqAddress := 0, slaveData := [ 10, 20 ], nextStatus := 0 }

/-- A sample device used by concrete witnesses: address 0x50, stored
status 4 (as if a previous transaction failed). -/
def sampleDevice : I2CDevice :=
  { dev_address := 80, m_status := 4 }

/-- C1 counterexample: the claim says `requestBytes` overwrites the stored
last-status byte so that `getBusStatus` afterwards reflects the outcome of
that request.  On the code it does not: starting from a device whose
stored status is 4 (a previous failure), a fully successful request of 2
bytes (all 2 received) leaves `getBusStatus` at 4, unchanged from before
the call. -/
theorem C1_counterexample :
    (sampleDevice.requestBytes sampleWire 2).2.2 = 2 ∧
    (sampleDevice.requestBytes sampleWire 2).1.getBusStatus = 4 ∧
    sampleDevice.getBusStatus = 4 := by
  decide

/-- C1 (amended): the stored last-status byte is overwritten by every
end-of-transaction call (`endTransmission`, with or without `sendStop`),
so that afterwards `getBusStatus` reflects that outcome; `requestBytes`
does not modify the stored status. -/
theorem C1_amended_status_overwrite (d : I2CDevice) (w : TwoWire) (stop n : Nat) :
    (d.endTransmission w).1.getBusStatus = (d.endTransmission w).2.2 ∧
    (d.endTransmissionStop w stop).1.getBusStatus = (d.endTransmissionStop w stop).2.2 ∧
    (d.requestBytes w n).1.getBusStatus = d.getBusStatus :=
  ⟨rfl, rfl, rfl⟩

/-- C2: a device constructed with address `a` reports exactly `a` from
`getAddress`, and no operation of the device changes the stored address. -/
theorem C2_address_immutable (a s0 : Nat) (d : I2CDevice) (w : TwoWire)
    (b n stop : Nat) (data : List Nat) :
    (I2CDevice.construct a s0).getAddress = a ∧
    (d.beginTransmission w).1.getAddress = d.getAddress ∧
    (d.writeByte w b).1.getAddress = d.getAddress ∧
    (d.writeBuffer w data).1.getAddress = d.getAddress ∧
    (d.read w).1.getAddress = d.getAddress ∧
    (d.endTransmission w).1.getAddress = d.getAddress ∧
    (d.endTransmissionStop w stop).1.getAddress = d.getAddress ∧
    (d.requestBytes w n).1.getAddress = d.getAddress ∧
    (d.detect w).1.getAddress = d.getAddress :=
  ⟨rfl, rfl, rfl, rfl, rfl, rfl, rfl, rfl, rfl⟩

/-- C3: for every transport outcome `s` in {0,1,2,3,4}, when the transport
end-of-transaction primitive yields `s`, `endTransmission` returns `s` and
`getBusStatus` of the resulting device state reports the same `s`,
unmodified. -/
theorem C3_status_passthrough (d : I2CDevice) (w : TwoWire) (s : Nat)
    (hs : s ≤ 4) (hw : w.nextStatus = s) :
    (d.endTransmission w).2.2 = s ∧
    (d.endTransmission w).1.getBusStatus = s := by
  subst hw
  exact ⟨rfl, rfl⟩

/-- C3 witness: concrete instance at outcome 3. -/
theorem C3_witness :
    (sampleDevice.endTransmission { sampleWire with nextStatus := 3 }).2.2 = 3 ∧
    (sampleDevice.endTransmission { sampleWire with nextStatus := 3 }).1.getBusStatus = 3 :=
  C3_status_passthrough sampleDevice { sampleWire with nextStatus := 3 } 3
    (by decide) (by decide)

/-- C4: `detect` performs a begin-transmission followed immediately by an
end-transmission on the transport, addressed with the device address, and
its result is true exactly when the resulting status equals `SUCCESS` (so
it is false for every non-zero status). -/
theorem C4_detect_probe (d : I2CDevice) (w : TwoWire) :
    (d.detect w).2.1 = ((w.beginTransmission d.getAddress).endTransmission).1 ∧
    ((d.detect w).2.2 = true ↔
      ((w.beginTransmission d.getAddress).endTransmission).2 = I2CDevice.SUCCESS) := by
  refine ⟨rfl, ?_⟩
  simp [I2CDevice.detect, I2CDevice.getAddress, I2CDevice.SUCCESS,
    TwoWire.beginTransmission, TwoWire.endTransmission, TwoWire.endTransmissionStop]

/-- C5: when `available` reports 0, `read` returns the sentinel -1, leaves
the device state (hence the recorded bus status) unchanged, and leaves the
transport state unchanged. -/
theorem C5_read_sentinel (d : I2CDevice) (w : TwoWire)
    (h : d.available w = 0) :
    (d.read w).2.2 = -1 ∧
    (d.read w).1 = d ∧
    (d.read w).1.getBusStatus = d.getBusStatus ∧
    (d.read w).2.1 = w := by
  have hrx : w.rxBuffer = [] := List.length_eq_zero.mp h
  simp [I2CDevice.read, TwoWire.read, hrx]

/-- C5 witness: concrete instance on an empty receive buffer. -/
theorem C5_witness :
    sampleDevice.available sampleWire = 0 ∧
    (sampleDevice.read sampleWire).2.2 = -1 ∧
    (sampleDevice.read sampleWire).1.getBusStatus = sampleDevice.getBusStatus :=
  ⟨by decide,
   (C5_read_sentinel sampleDevice sampleWire (by decide)).1,
   (C5_read_sentinel sampleDevice sampleWire (by decide)).2.2.1⟩

/-- C6: writing a buffer of N bytes returns exactly N when the transport
has remaining capacity at least N, and returns the remaining capacity M
when M < N; the stored bus status is never touched by a write. -/
theorem C6_write_count (d : I2CDevice) (w : TwoWire) (data : List Nat) :
    (data.length ≤ w.txRemaining → (d.writeBuffer w data).2.2 = data.length) ∧
    (w.txRemaining < data.length → (d.writeBuffer w data).2.2 = w.txRemaining) ∧
    (d.writeBuffer w data).1.getBusStatus = d.getBusStatus := by
  refine ⟨?_, ?_, rfl⟩
  · intro h
    simp [I2CDevice.writeBuffer, TwoWire.writeBuffer, Nat.min_eq_left h]
  · intro h
    simp [I2CDevice.writeBuffer, TwoWire.writeBuffer, Nat.min_eq_right (Nat.le_of_lt h)]

/-- C6 witness: concrete instances, one with enough capacity (3 bytes into
capacity 32 gives 3) and one truncating (3 bytes into capacity 2 gives
2). -/
theorem C6_witness :
    (sampleDevice.writeBuffer sampleWire [ 1, 2, 3 ]).2.2 = 3 ∧
    (sampleDevice.writeBuffer { sampleWire with txRemaining := 2 } [ 1, 2, 3 ]).2.2 = 2 :=
  ⟨(C6_write_count sampleDevice sampleWire [ 1, 2, 3 ]).1 (by decide),
   (C6_write_count sampleDevice { sampleWire with txRemaining := 2 } [ 1, 2, 3 ]).2.1
     (by decide)⟩

/-- C7: the owner mixin forwards `getBusStatus`, `printBusStatus` and
`detect` to its single composed device, with identical results and side
effects, and carries no state beyond that device. -/
theorem C7_owner_forwarding (h : HasI2CDevice) (w : TwoWire) (sink : List String) :
    h.getBusStatus = h.bus.getBusStatus ∧
    h.printBusStatus sink = h.bus.printBusStatus sink ∧
    (h.detect w).2.2 = (h.bus.detect w).2.2 ∧
    (h.detect w).2.1 = (h.bus.detect w).2.1 ∧
    (h.detect w).1.bus = (h.bus.detect w).1 ∧
    h = { bus := h.bus } :=
  ⟨rfl, rfl, rfl, rfl, rfl, rfl⟩

/-- C8: `beginTransmission` starts the transport transaction addressed
with the device address, and `requestBytes` issues the transport read
request at that same address, returning the transport received count
unchanged. -/
theorem C8_addressing (d : I2CDevice) (w : TwoWire) (n : Nat) :
    (d.beginTransmission w).2 = w.beginTransmission d.getAddress ∧
    (d.beginTransmission w).2.txAddress = d.getAddress ∧
    (d.requestBytes w n).2.1 = (w.requestFrom d.getAddress n).1 ∧
    (d.requestBytes w n).2.1.reqAddress = d.getAddress ∧
    (d.requestBytes w n).2.2 = (w.requestFrom d.getAddress n).2 :=
  ⟨rfl, rfl, rfl, rfl, rfl⟩

/-- C9: `detect` leaves the device state, and therefore the recorded bus
status reported by `getBusStatus` and `getStatus`, exactly as before the
call, because the source invokes the transport end-of-transaction
primitive directly without storing its result. -/
theorem C9_detect_frame (d : I2CDevice) (w : TwoWire) :
    (d.detect w).1 = d ∧
    (d.detect w).1.getBusStatus = d.getBusStatus ∧
    (d.detect w).1.getStatus = d.getStatus :=
  ⟨rfl, rfl, rfl⟩

/-- C10: `getStatus` and `getBusStatus` return the same value, both
reading the single stored status byte; as pure functions of the device
state they perform no transport interaction and mutate nothing. -/
theorem C10_status_accessors (d : I2CDevice) :
    d.getStatus = d.getBusStatus ∧ d.getBusStatus = d.m_status :=
  ⟨rfl, rfl⟩
